import Mathlib

/-!
Verification of the gestalt messaging framework.

This file is a shallow embedding, in Lean 4, of the parts of the gestalt
codebase that the checked properties concern: the serialization and
compression registries, the payload pipeline as used by the AMQP producer,
the stream and datagram framing parsers, the stream and datagram
endpoint lifecycle logic, and the RPC requester response handler.

Python dictionaries are modelled as association lists, Python byte
strings as lists of naturals below 256, and Python exceptions as an
explicit error type.  Functions that can raise are modelled in
Except or return an explicit result record carrying a raised field.
-/

/-- Python exceptions raised by the modelled code paths.  Each constructor
names the concrete raise site in the source; messages are abstracted into
the constructor name. -/
inductive PyErr where
  /-- Reading a function local variable before it was assigned in the
  current invocation. -/
  | unboundLocalError
  /-- Indexing a dict with a missing key. -/
  | keyError
  /-- Unpacking a buffer shorter than the struct format requires. -/
  | structError
  /-- SerializerRegistry.get_codec and get_serializer raise this when the
  key is not a registered serializer key. -/
  | invalidSerializer
  /-- CompressorRegistry.get_compressor and get_decompressor raise this
  when the key is not a registered compression key. -/
  | invalidCompressor
  /-- DatagramEndpoint.start raise when neither local_addr nor remote_addr
  was supplied. -/
  | atLeastOneAddrRequired
  /-- DatagramEndpoint.start raise when both local_addr and remote_addr
  were supplied. -/
  | onlyOneAddrAllowed
  /-- StreamEndpoint listen failure re-raise. -/
  | bindError
  /-- asyncio.TimeoutError set on a requester future for a dead-lettered
  response. -/
  | timeoutError
  /-- An error raised while encoding a payload. -/
  | encodeError
  /-- An error raised while decoding a payload. -/
  | decodeError
deriving DecidableEq, Repr

/-- A Python value as it appears on the send or receive path: a byte
string, a text string, or any other (JSON-serializable) object, the
latter abstracted to an opaque tag. -/
inductive PyData where
  | bytes (bs : List Nat)
  | str (s : String)
  | obj (tag : Nat)
deriving DecidableEq, Repr

/-- The bytes produced by the encode pipeline.  External codecs (json,
zlib, ...) are kept abstract: the constructors record which encoding was
applied to which value, which is enough to reason about the pipeline
structure while remaining executable. -/
inductive Payload where
  | raw (bs : List Nat)
  | textUtf8 (s : String)
  | jsonOf (d : PyData)
  | compressed (mime : String) (p : Payload)
deriving DecidableEq, Repr

/-- A value stored in a message headers mapping. -/
inductive HVal where
  | str (s : String)
  | nat (n : Nat)
deriving DecidableEq, Repr

/-- First-match lookup in an association list (Python dict read). -/
def alistFind {κ ν : Type} [DecidableEq κ] (k : κ) : List (κ × ν) → Option ν
  | [] => none
  | (k', v) :: rest => if k = k' then some v else alistFind k rest

/-- Insert-or-overwrite in an association list (Python dict write): an
existing key keeps its position, a new key is appended, matching dict
insertion-order semantics. -/
def alistInsert {κ ν : Type} [DecidableEq κ] (k : κ) (v : ν) : List (κ × ν) → List (κ × ν)
  | [] => [(k, v)]
  | (k', v') :: rest =>
    if k = k' then (k, v) :: rest else (k', v') :: alistInsert k v rest

/-- Remove the first binding of a key (Python dict.pop discard part). -/
def alistErase {κ ν : Type} [DecidableEq κ] (k : κ) : List (κ × ν) → List (κ × ν)
  | [] => []
  | (k', v') :: rest =>
    if k = k' then rest else (k', v') :: alistErase k rest

/-! ## Serialization registry (src/gestalt/serialization.py)

Entries registered by initialize: the none serializer (raw bytes), text
and json.  The msgpack, yaml, avro and protobuf serializers are
registered through the same register method only when their optional
third-party libraries are importable; the registered entries below are
the unconditional ones. -/

/-- A registered serialization codec: the namedtuple
codec(content_type, content_encoding, serializer), with the serializer
instance abstracted to a reference name. -/
structure SerCodec where
  content_type : String
  content_encoding : String
  serializer : String
deriving DecidableEq, Repr

/-- SerializerRegistry state: the _serializers dict keyed by convenience
name, and the two name/type maps kept by register. -/
structure SerializerRegistry where
  serializers : List (Option String × SerCodec)
  type_to_name : List (String × Option String)
  name_to_type : List (Option String × String)
deriving DecidableEq, Repr

/-- SerializerRegistry.register: stores the codec under the convenience
name and maps the convenience name to the mime type and back again. -/
def ser_register (r : SerializerRegistry) (name : Option String)
    (serializer : String) (content_type : String) (content_encoding : String) :
    SerializerRegistry :=
  { serializers := alistInsert name ⟨content_type, content_encoding, serializer⟩ r.serializers
    type_to_name := alistInsert content_type name r.type_to_name
    name_to_type := alistInsert name content_type r.name_to_type }

/-- The module-level serialization registry after initialize ran the
unconditional registrations (register_none, register_text,
register_json). -/
def ser_registry : SerializerRegistry :=
  ser_register
    (ser_register
      (ser_register ⟨[], [], []⟩ none ("NoneSerializer") ("application/data") ("binary"))
      (some ("text")) ("TextSerializer") ("text/plain") ("utf-8"))
    (some ("json")) ("JsonSerializer") ("application/json") ("utf-8")

/-- SerializerRegistry.get_codec: a plain lookup of the _serializers dict
keyed by convenience name; a missing key raises. -/
def ser_get_codec (r : SerializerRegistry) (name : Option String) :
    Except PyErr SerCodec :=
  match alistFind name r.serializers with
  | some c => .ok c
  | none => .error .invalidSerializer

/-! ## Compression registry (src/gestalt/compression.py)

Entries registered by initialize: the none compressor, zlib, deflate,
gzip, bzip2 and lzma (bz2 and lzma are standard-library modules, so
their import guards succeed).  brotli and snappy are registered the same
way only when their third-party libraries are importable. -/

/-- CompressorRegistry state: encoder and decoder dicts keyed by
content type (the compressor functions abstracted to reference names),
plus the two name/type maps. -/
structure CompressorRegistry where
  encoders : List (Option String × String)
  decoders : List (Option String × String)
  type_to_name : List (Option String × Option String)
  name_to_type : List (Option String × Option String)
deriving DecidableEq, Repr

/-- CompressorRegistry.register: stores encoder and decoder under the
content type and maps the convenience name to the content type and back
again. -/
def comp_register (r : CompressorRegistry) (name : Option String)
    (encoder decoder : String) (content_type : Option String) :
    CompressorRegistry :=
  { encoders := alistInsert content_type encoder r.encoders
    decoders := alistInsert content_type decoder r.decoders
    type_to_name := alistInsert content_type name r.type_to_name
    name_to_type := alistInsert name content_type r.name_to_type }

/-- The module-level compression registry after initialize. -/
def comp_registry : CompressorRegistry :=
  comp_register
    (comp_register
      (comp_register
        (comp_register
          (comp_register
            (comp_register ⟨[], [], [], []⟩
              none ("NoneCompress") ("NoneDecompress") none)
            (some ("zlib")) ("ZlibCompress") ("ZlibDecompress") (some ("application/zlib")))
          (some ("deflate")) ("DeflateCompress") ("DeflateDecompress") (some ("application/deflate")))
        (some ("gzip")) ("GzipCompress") ("GzipDecompress") (some ("applications/x-gzip")))
      (some ("bzip2")) ("Bz2Compress") ("Bz2Decompress") (some ("applications/x-bz2")))
    (some ("lzma")) ("LzmaCompress") ("LzmaDecompress") (some ("applications/x-lzma"))

/-- CompressorRegistry.get_compressor: accepts either the convenience
name or the mime type, resolves both to the content type and returns the
content type together with the encoder stored under it; an unknown key
raises. -/
def get_compressor (r : CompressorRegistry) (compression : Option String) :
    Except PyErr (Option String × String) :=
  match alistFind compression r.name_to_type with
  | some content_type =>
    match alistFind content_type r.encoders with
    | some e => .ok (content_type, e)
    | none => .error .invalidCompressor
  | none =>
    match alistFind compression r.type_to_name with
    | some _name =>
      match alistFind compression r.encoders with
      | some e => .ok (compression, e)
      | none => .error .invalidCompressor
    | none => .error .invalidCompressor

/-! ## Netstring stream framing parser
(src/gestalt/stream/protocols/netstring.py)

The parser keeps a byte buffer and a two-state machine.  Crucially,
msg_len is a local variable of data_received in the source: it is lost
between calls, so a call that resumes in WAIT_PAYLOAD reads an unbound
local.  The model threads msg_len as an Option that every call of
data_received starts at none. -/

/-- ProtocolStates of the buffered stream parsers. -/
inductive ProtocolState where
  | waitHeader
  | waitPayload
deriving DecidableEq, Repr

/-- struct.unpack of a uint32 from the first four bytes (x86
little-endian, as produced by struct.pack on the sending side). -/
def leUint32 (bs : List Nat) : Nat :=
  match bs with
  | b0 :: b1 :: b2 :: b3 :: _ => b0 + 256 * b1 + 65536 * b2 + 16777216 * b3
  | _ => 0

/-- MAX_MSG_SIZE = 2 ** 31 - 1. -/
def MAX_MSG_SIZE : Nat := 2 ^ 31 - 1

/-- NETSTRING_HEADER_SIZE = struct.calcsize of one uint32. -/
def NETSTRING_HEADER_SIZE : Nat := 4

/-- The observable outcome of one NetstringStreamProtocol.data_received
call: the buffer and machine state left behind, the payloads passed to
on_message in order, whether close() was called, and an exception if one
escaped the call. -/
structure NsResult where
  buffer : List Nat
  pstate : ProtocolState
  msgs : List (List Nat)
  closed : Bool
  raised : Option PyErr
deriving DecidableEq, Repr

/-- The while-loop body of NetstringStreamProtocol.data_received.
msgLen models the msg_len local: none until the WAIT_HEADER branch of
the current call assigns it. -/
def ns_loop (buffer : List Nat) (pstate : ProtocolState) (msgLen : Option Nat)
    (msgs : List (List Nat)) : NsResult :=
  if _h : buffer = [] then ⟨buffer, pstate, msgs, false, none⟩
  else
    match pstate with
    | .waitHeader =>
      if NETSTRING_HEADER_SIZE ≤ buffer.length then
        let msg_len := leUint32 (buffer.take NETSTRING_HEADER_SIZE)
        if msg_len = 0 ∨ MAX_MSG_SIZE < msg_len then
          -- msg has no body or is too big: close the connection, break
          ⟨buffer, pstate, msgs, true, none⟩
        else
          ns_loop buffer .waitPayload (some msg_len) msgs
      else
        -- not enough bytes to extract the header yet
        ⟨buffer, pstate, msgs, false, none⟩
    | .waitPayload =>
      match msgLen with
      | none =>
        -- eom = NETSTRING_HEADER_SIZE + msg_len with msg_len unassigned
        ⟨buffer, pstate, msgs, false, some .unboundLocalError⟩
      | some ml =>
        let eom := NETSTRING_HEADER_SIZE + ml
        if eom ≤ buffer.length then
          let msg := (buffer.drop NETSTRING_HEADER_SIZE).take ml
          ns_loop (buffer.drop eom) .waitHeader (some ml) (msgs ++ [msg])
        else
          -- not enough bytes to extract the payload yet
          ⟨buffer, pstate, msgs, false, none⟩
termination_by 2 * buffer.length + (match pstate with | .waitHeader => 1 | .waitPayload => 0)
decreasing_by
  all_goals have h4 : NETSTRING_HEADER_SIZE = 4 := rfl
  all_goals simp [List.length_drop]
  all_goals omega

/-- The persistent state of a NetstringStreamProtocol instance. -/
structure NsState where
  buffer : List Nat
  pstate : ProtocolState
deriving DecidableEq, Repr

/-- NetstringStreamProtocol.data_received: extend the buffer with the
received data and run the extraction loop; the msg_len local starts
unassigned in every call. -/
def netstring_data_received (s : NsState) (data : List Nat) : NsResult :=
  ns_loop (s.buffer ++ data) s.pstate none []

/-- Deliver a sequence of chunks to the parser with one data_received
call per chunk, collecting the emitted messages.  Delivery stops when a
call raises or closes the connection. -/
def ns_feed (s : NsState) : List (List Nat) → NsState × List (List Nat) × Bool × Option PyErr
  | [] => (s, [], false, none)
  | chunk :: rest =>
    let r := netstring_data_received s chunk
    if r.raised.isSome ∨ r.closed then
      (⟨r.buffer, r.pstate⟩, r.msgs, r.closed, r.raised)
    else
      let rec2 := ns_feed ⟨r.buffer, r.pstate⟩ rest
      (rec2.1, r.msgs ++ rec2.2.1, rec2.2.2.1, rec2.2.2.2)

/-! ## MTI (length + type id) stream framing parser
(src/gestalt/comms/stream/protocols/mti.py)

Same two-state machine as the netstring parser, with an 8-byte header
carrying (length, type id).  A zero length emits an empty payload
directly from the WAIT_HEADER branch; note the source passes the id
under the keyword identifier there, while the WAIT_PAYLOAD branch
passes it under type_identifier. -/

/-- MTI_HEADER_SIZE = struct.calcsize of two uint32 fields. -/
def MTI_HEADER_SIZE : Nat := 8

/-- One message delivered to the on_message handler by an MTI protocol:
the payload value, the keyword under which the type id was passed, and
the id value. -/
structure MtiMsg where
  payload : PyData
  idKey : String
  idVal : Nat
deriving DecidableEq, Repr

/-- The observable outcome of one MtiStreamProtocol.data_received call.
diverged records the source looping forever: the oversize branch calls
close() but, unlike the netstring parser, has no break, so the loop
re-reads the same header without end. -/
structure MtiResult where
  buffer : List Nat
  pstate : ProtocolState
  msgs : List MtiMsg
  closed : Bool
  raised : Option PyErr
  diverged : Bool
deriving DecidableEq, Repr

/-- The while-loop body of MtiStreamProtocol.data_received.  msgLen and
msgId model the msg_len and msg_id locals, none until assigned in the
current call. -/
def mti_loop (buffer : List Nat) (pstate : ProtocolState)
    (msgLen msgId : Option Nat) (msgs : List MtiMsg) : MtiResult :=
  if _h : buffer = [] then ⟨buffer, pstate, msgs, false, none, false⟩
  else
    match pstate with
    | .waitHeader =>
      if MTI_HEADER_SIZE ≤ buffer.length then
        let msg_len := leUint32 (buffer.take 4)
        let msg_id := leUint32 ((buffer.drop 4).take 4)
        if msg_len = 0 then
          -- msg has no body: emit b"" with identifier=msg_id
          mti_loop (buffer.drop MTI_HEADER_SIZE) .waitHeader
            (some msg_len) (some msg_id)
            (msgs ++ [⟨PyData.bytes [], "identifier", msg_id⟩])
        else if MAX_MSG_SIZE < msg_len then
          -- close() is called, but there is no break: the loop re-reads
          -- the same header forever
          ⟨buffer, pstate, msgs, true, none, true⟩
        else
          mti_loop buffer .waitPayload (some msg_len) (some msg_id) msgs
      else
        ⟨buffer, pstate, msgs, false, none, false⟩
    | .waitPayload =>
      match msgLen with
      | none =>
        -- eom = MTI_HEADER_SIZE + msg_len with msg_len unassigned
        ⟨buffer, pstate, msgs, false, some .unboundLocalError, false⟩
      | some ml =>
        let eom := MTI_HEADER_SIZE + ml
        if eom ≤ buffer.length then
          match msgId with
          | none => ⟨buffer, pstate, msgs, false, some .unboundLocalError, false⟩
          | some mid =>
            -- emit payload with type_identifier=msg_id
            mti_loop (buffer.drop eom) .waitHeader (some ml) (some mid)
              (msgs ++ [⟨PyData.bytes ((buffer.drop MTI_HEADER_SIZE).take ml),
                         "type_identifier", mid⟩])
        else
          ⟨buffer, pstate, msgs, false, none, false⟩
termination_by 2 * buffer.length + (match pstate with | .waitHeader => 1 | .waitPayload => 0)
decreasing_by
  all_goals have h8 : MTI_HEADER_SIZE = 8 := rfl
  all_goals simp [List.length_drop]
  all_goals omega

/-- MtiStreamProtocol.data_received: extend the buffer with the received
data and run the extraction loop; the msg_len and msg_id locals start
unassigned in every call. -/
def mti_stream_data_received (s : NsState) (data : List Nat) : MtiResult :=
  mti_loop (s.buffer ++ data) s.pstate none none []

/-! ## MTI datagram protocol (src/gestalt/datagram/protocols/mti.py) -/

/-- MtiDatagramProtocol.datagram_received: unpack the 8-byte header from
the single datagram; a zero length yields the empty str (the source
assigns msg = "", a text string, not b""), otherwise the payload bytes;
the handler is called with addr and type_identifier keywords. -/
def mti_datagram_received (data : List Nat) (addr : String × Nat) :
    Except PyErr (MtiMsg × (String × Nat)) :=
  if data.length < MTI_HEADER_SIZE then .error .structError
  else
    let msg_len := leUint32 (data.take 4)
    let msg_id := leUint32 ((data.drop 4).take 4)
    if msg_len = 0 then
      -- msg has no body: msg = ""
      .ok (⟨PyData.str "", "type_identifier", msg_id⟩, addr)
    else
      .ok (⟨PyData.bytes ((data.drop MTI_HEADER_SIZE).take msg_len),
            "type_identifier", msg_id⟩, addr)

/-! ## Delimiter-separated framing parser
(src/examples/stream/linereceiver/delimited.py) -/

/-- Whether sep is an initial segment of l. -/
def listStartsWith : List Nat → List Nat → Bool
  | [], _ => true
  | _ :: _, [] => false
  | a :: as, b :: bs => a = b && listStartsWith as bs

/-- Python bytes.split(sep) for a non-empty separator: split on
non-overlapping occurrences scanned left to right; always returns at
least one (possibly empty) segment. -/
def py_split (sep : List Nat) (l : List Nat) : List (List Nat) :=
  if hsep : sep = [] then
    -- bytearray.split with an empty separator raises ValueError in
    -- Python; the protocols only call this with a non-empty delimiter
    [l]
  else
    match l with
    | [] => [[]]
    | x :: xs =>
      if listStartsWith sep (x :: xs) then
        [] :: py_split sep ((x :: xs).drop sep.length)
      else
        match py_split sep xs with
        | [] => [[x]]
        | s :: ss => (x :: s) :: ss
termination_by l.length
decreasing_by
  all_goals simp [List.length_drop]
  all_goals have hpos : 0 < sep.length := List.length_pos.mpr hsep
  all_goals omega

/-- The persistent state of a LineDelimitedStreamProtocol instance. -/
structure DelimState where
  delimiter : List Nat
  buffer : List Nat
deriving DecidableEq, Repr

/-- LineDelimitedStreamProtocol.data_received: extend the buffer, split
on the delimiter; if the last split element is empty (buffer ended with
the delimiter) discard it and clear the buffer, otherwise return it to
the buffer as a partial message; every remaining element is passed to
on_message. -/
def delim_data_received (s : DelimState) (data : List Nat) :
    DelimState × List (List Nat) :=
  let buffer := s.buffer ++ data
  let msgs := py_split s.delimiter buffer
  if msgs.getLast? = some [] then
    -- discard the trailing empty element and clear the buffer
    (⟨s.delimiter, []⟩, msgs.dropLast)
  else
    -- a partial msg was in the buffer: return it to the buffer
    (⟨s.delimiter, (msgs.getLast?).getD []⟩, msgs.dropLast)

/-! ## Serializer dumps and the payload encode pipeline
(src/gestalt/serialization.py SerializerRegistry.dumps,
src/gestalt/amq/utils.py encode_payload) -/

/-- Mime-type constants from src/gestalt/serialization.py. -/
def CONTENT_TYPE_DATA : String := "application/data"

/-- text/plain. -/
def CONTENT_TYPE_TEXT : String := "text/plain"

/-- application/json. -/
def CONTENT_TYPE_JSON : String := "application/json"

/-- application/vnd.google.protobuf. -/
def CONTENT_TYPE_PROTOBUF : String := "application/vnd.google.protobuf"

/-- application/x-avro. -/
def CONTENT_TYPE_AVRO : String := "application/x-avro"

/-- serializer.encode for the three unconditional serializers: the none
serializer passes bytes through and rejects anything else, the text
serializer utf-8 encodes a str, the json serializer encodes any value. -/
def ser_encode (serializerRef : String) (data : PyData) : Except PyErr Payload :=
  if serializerRef = "NoneSerializer" then
    match data with
    | .bytes bs => .ok (.raw bs)
    | _ => .error .encodeError
  else if serializerRef = "TextSerializer" then
    match data with
    | .str s => .ok (.textUtf8 s)
    | _ => .error .encodeError
  else if serializerRef = "JsonSerializer" then
    .ok (.jsonOf data)
  else
    .error .encodeError

/-- SerializerRegistry.dumps: with a (truthy) serialization name, look
the codec up and encode; with none, guess from the data type: bytes pass
through as application/data, str becomes text/plain utf-8, anything else
uses the default json codec. -/
def ser_dumps (data : PyData) (serialization : Option String) :
    Except PyErr (String × String × Payload) :=
  match serialization with
  | some sname =>
    match alistFind (some sname) ser_registry.serializers with
    | none => .error .invalidSerializer
    | some c =>
      match ser_encode c.serializer data with
      | .error e => .error e
      | .ok payload => .ok (c.content_type, c.content_encoding, payload)
  | none =>
    match data with
    | .bytes bs => .ok (CONTENT_TYPE_DATA, "binary", .raw bs)
    | .str s => .ok (CONTENT_TYPE_TEXT, "utf-8", .textUtf8 s)
    | _ => .ok (CONTENT_TYPE_JSON, "utf-8", .jsonOf data)

/-- CompressorRegistry.compress: resolve the compressor by name or mime
type and apply it; the none compressor (content type none) passes bytes
through, every other compressor wraps the payload and reports its mime
type. -/
def comp_compress (payload : Payload) (compression : Option String) :
    Except PyErr (Option String × Payload) :=
  match get_compressor comp_registry compression with
  | .error e => .error e
  | .ok (content_type, _encoder) =>
    match content_type with
    | some mime => .ok (some mime, .compressed mime payload)
    | none => .ok (none, payload)

/-- utils.encode_payload: for protobuf content the object's registered
type id is written to headers under x-type-id (the process-wide object
registry is abstracted as the protobuf_id_of argument); for avro content
the caller-supplied type_identifier is required and written under
x-type-id; then the payload is serialized via dumps with the name found
in type_to_name (a missing or none content type raises KeyError); if a
compression is given the payload is compressed and the compression mime
type written to headers under compression. -/
def encode_payload (data : PyData) (content_type : Option String)
    (compression : Option String) (headers : List (String × HVal))
    (type_identifier : Option Nat) (protobuf_id_of : PyData → Option Nat) :
    Except PyErr (Payload × String × String × List (String × HVal)) :=
  let step1 : Except PyErr (List (String × HVal)) :=
    if content_type = some CONTENT_TYPE_PROTOBUF then
      match protobuf_id_of data with
      | some i => .ok (alistInsert "x-type-id" (.nat i) headers)
      | none => .error .encodeError
    else if content_type = some CONTENT_TYPE_AVRO then
      match type_identifier with
      | some i => .ok (alistInsert "x-type-id" (.nat i) headers)
      | none => .error .encodeError
    else
      .ok headers
  match step1 with
  | .error e => .error e
  | .ok headers =>
    let serialization_name : Except PyErr (Option String) :=
      match content_type with
      | none => .error .keyError
      | some ct =>
        match alistFind ct ser_registry.type_to_name with
        | none => .error .keyError
        | some sname => .ok sname
    match serialization_name with
    | .error e => .error e
    | .ok sname =>
      match ser_dumps data sname with
      | .error _ => .error .encodeError
      | .ok (content_type, content_encoding, payload) =>
        match compression with
        | none => .ok (payload, content_type, content_encoding, headers)
        | some cname =>
          match comp_compress payload (some cname) with
          | .error _ => .error .encodeError
          | .ok (mime, payload) =>
            let headers :=
              match mime with
              | some m => alistInsert "compression" (.str m) headers
              | none => headers
            .ok (payload, content_type, content_encoding, headers)

/-! ## AMQP producer (src/gestalt/amq/producer.py) -/

/-- Producer state relevant to publish_message. -/
structure ProducerState where
  connected : Bool
  routing_key : String
  serialization : Option String
  compression : Option String
deriving DecidableEq, Repr

/-- Python "a if a else b" on an optional string: none and the empty
string are falsy. -/
def pyOrOpt (a : Option String) (b : Option String) : Option String :=
  match a with
  | some s => if s = "" then b else some s
  | none => b

/-- Python "a if a else b" defaulting to a plain string. -/
def pyOrStr (a : Option String) (b : String) : String :=
  match a with
  | some s => if s = "" then b else s
  | none => b

/-- What Producer.publish_message did. -/
inductive PublishOutcome where
  | noPublish
  | published (body : Payload) (content_type : String) (content_encoding : String)
      (headers : List (String × HVal)) (routing_key : String) (mandatory : Bool)
deriving DecidableEq, Repr

/-- Producer.publish_message: without a connection nothing is published;
otherwise the routing key, serialization and compression fall back to
the producer defaults, the headers variable is rebound to a fresh empty
dict (discarding the caller-supplied mapping), the encode pipeline runs
(an encoding error is logged and nothing is published), and the message
is published with mandatory false. -/
def producer_publish_message (p : ProducerState) (data : PyData)
    (routing_key : Option String) (content_type : Option String)
    (compression : Option String) (headers : List (String × HVal))
    (type_identifier : Option Nat) (protobuf_id_of : PyData → Option Nat) :
    PublishOutcome :=
  if p.connected = false then .noPublish
  else
    let routing_key := pyOrStr routing_key p.routing_key
    let serialization := pyOrOpt content_type p.serialization
    let compression := pyOrOpt compression p.compression
    -- line 161 of producer.py: headers = {}
    let headers := ([] : List (String × HVal))
    match encode_payload data serialization compression headers type_identifier protobuf_id_of with
    | .error _ => .noPublish
    | .ok (payload, content_type, content_encoding, headers) =>
      .published payload content_type content_encoding headers routing_key false

/-! ## Stream client reconnect backoff
(src/gestalt/stream/endpoint.py StreamEndpoint._connect) -/

/-- BACKOFF_JITTER = 0.05. -/
def BACKOFF_JITTER : ℚ := 5 / 100

/-- The backoff update performed after each wait:
self._backoff = min(self._backoff_maximum, self._backoff + (self._backoff / 2) + 1). -/
def next_backoff (backoff_maximum backoff : ℚ) : ℚ :=
  min backoff_maximum (backoff + backoff / 2 + 1)

/-- The nominal (jitter-free) wait before the (n+1)-st connect attempt
of an always-failing client: zero before the first attempt, then the
update applied once per attempt. -/
def nominal_backoff (backoff_maximum : ℚ) : ℕ → ℚ
  | 0 => 0
  | n + 1 => next_backoff backoff_maximum (nominal_backoff backoff_maximum n)

/-- Lower end of random.uniform(max(0, backoff - jitter), backoff + jitter)
with jitter = backoff * BACKOFF_JITTER. -/
def backoff_wait_lo (backoff : ℚ) : ℚ :=
  max 0 (backoff - backoff * BACKOFF_JITTER)

/-- Upper end of the jittered wait interval. -/
def backoff_wait_hi (backoff : ℚ) : ℚ :=
  backoff + backoff * BACKOFF_JITTER

/-- Line 418 of endpoint.py: upon a successful connection the backoff is
reset, self._backoff = 0. -/
def backoff_after_success : ℚ := 0

/-! ## RPC requester response handling
(src/gestalt/amq/requester.py Requester.on_response_message) -/

/-- The completion state of an asyncio future held in Requester.futures. -/
inductive FutureState where
  | pending
  | succeeded (v : PyData)
  | failed (e : PyErr)
deriving DecidableEq, Repr

/-- The parts of an aio_pika IncomingMessage that on_response_message
inspects before any decoding. -/
structure IncomingMsg where
  correlation_id : Option String
  headerKeys : List String
deriving DecidableEq, Repr

/-- What on_response_message did to the popped future (or why it only
warned). -/
inductive RespAction where
  | warnedNoCorrelation
  | warnedUnrecognized
  | setException (e : PyErr)
  | setResult (v : PyData)
deriving DecidableEq, Repr

/-- Outcome of one on_response_message call: the outstanding-request
table afterwards, the action taken, that the message was acked, and
whether utils.decode_message was invoked on the body. -/
structure RespResult where
  futures : List (String × FutureState)
  action : RespAction
  acked : Bool
  decode_attempted : Bool
deriving DecidableEq, Repr

/-- Requester.on_response_message: ack; warn and return without a
correlation id; pop the future for the correlation id (warn and return
if there is none); if the x-death header is present fail the future
with asyncio.TimeoutError without decoding the body; otherwise decode
and either fail the future with the decode error or fulfil it. -/
def on_response_message (futures : List (String × FutureState)) (msg : IncomingMsg)
    (decode_message : IncomingMsg → Except PyErr PyData) : RespResult :=
  match msg.correlation_id with
  | none => ⟨futures, .warnedNoCorrelation, true, false⟩
  | some cid =>
    match alistFind cid futures with
    | none => ⟨futures, .warnedUnrecognized, true, false⟩
    | some _f =>
      let futures := alistErase cid futures
      if ("x-death") ∈ msg.headerKeys then
        ⟨futures, .setException .timeoutError, true, false⟩
      else
        match decode_message msg with
        | .error e => ⟨futures, .setException e, true, true⟩
        | .ok payload => ⟨futures, .setResult payload, true, true⟩

/-! ## Datagram endpoint lifecycle (src/gestalt/datagram/endpoint.py) -/

/-- The DatagramEndpoint state mutated by start and stop: the running
flag and whether a protocol instance is attached. -/
structure DgState where
  running : Bool
  hasProtocol : Bool
deriving DecidableEq, Repr

/-- Externally observable actions of a datagram endpoint lifecycle
call. -/
inductive DgEffect where
  | openAttempt
  | onStartedCb
  | errorLogged
  | closedProtocol
  | onStoppedCb
deriving DecidableEq, Repr

/-- Environment outcome of create_datagram_endpoint. -/
inductive DgIo where
  | opened
  | refused
deriving DecidableEq, Repr

/-- Result of a lifecycle call that may raise: the exception if one
escaped, the endpoint state afterwards, and the effects in order. -/
structure DgStepResult where
  raised : Option PyErr
  state : DgState
  effects : List DgEffect
deriving DecidableEq, Repr

/-- DatagramEndpoint.start: a running endpoint returns immediately;
with neither address or with both addresses an exception is raised
before anything is mutated; otherwise the transport is opened: on
success the endpoint becomes running and on_started fires, on refusal
the error is logged and the endpoint stays not running. -/
def datagram_start (s : DgState) (local_addr remote_addr : Option (String × Nat))
    (io : DgIo) : DgStepResult :=
  if s.running then ⟨none, s, []⟩
  else if local_addr = none ∧ remote_addr = none then
    ⟨some .atLeastOneAddrRequired, s, []⟩
  else if local_addr ≠ none ∧ remote_addr ≠ none then
    ⟨some .onlyOneAddrAllowed, s, []⟩
  else
    match io with
    | .opened => ⟨none, ⟨true, true⟩, [.openAttempt, .onStartedCb]⟩
    | .refused => ⟨none, s, [.openAttempt, .errorLogged]⟩

/-- DatagramEndpoint.stop: a stopped endpoint returns immediately;
otherwise the protocol (if any) is closed, the running flag cleared and
on_stopped fired. -/
def datagram_stop (s : DgState) : DgState × List DgEffect :=
  if s.running = false then (s, [])
  else if s.hasProtocol then
    (⟨false, false⟩, [.closedProtocol, .onStoppedCb])
  else
    (⟨false, s.hasProtocol⟩, [.onStoppedCb])

/-- Two consecutive start calls; if the first raises, straight-line
caller code never reaches the second. -/
def datagram_start_twice (s : DgState) (local_addr remote_addr : Option (String × Nat))
    (io1 io2 : DgIo) : DgStepResult :=
  let r1 := datagram_start s local_addr remote_addr io1
  match r1.raised with
  | some _ => r1
  | none =>
    let r2 := datagram_start r1.state local_addr remote_addr io2
    ⟨r2.raised, r2.state, r1.effects ++ r2.effects⟩

/-- Two consecutive calls of an exception-free lifecycle step. -/
def call_twice {σ ε : Type} (f : σ → σ × List ε) (s : σ) : σ × List ε :=
  let r1 := f s
  let r2 := f r1.1
  (r2.1, r1.2 ++ r2.2)

/-! ## Stream endpoint lifecycle and send
(src/gestalt/stream/endpoint.py) -/

/-- The StreamEndpoint state mutated by start, stop and the peer
callbacks.  Protocol instances are abstracted to numeric references in
the peer map. -/
structure StreamState where
  running : Bool
  reconnect : Bool
  addr : String
  port : Nat
  peers : List (List Nat × Nat)
  hasListener : Bool
deriving DecidableEq, Repr

/-- Externally observable actions of a stream endpoint lifecycle
call. -/
inductive StreamEffect where
  | listenAttempt
  | connectAttempt
  | onStartedCb
  | onStoppedCb
  | errorLogged
  | closedListener
  | disconnectedPeer (peer : List Nat)
  | scheduledReconnect
deriving DecidableEq, Repr

/-- Environment outcome of create_server or create_connection. -/
inductive StreamIo where
  | ok
  | failed
deriving DecidableEq, Repr

/-- Result of a stream lifecycle call that may raise. -/
structure StreamStepResult where
  raised : Option PyErr
  state : StreamState
  effects : List StreamEffect
deriving DecidableEq, Repr

/-- StreamEndpoint.start: a running endpoint returns immediately;
otherwise the addr, port and reconnect fields are stored and the
running flag is set (before any network operation).  A server then
binds: a bind failure is logged and re-raised with the running flag
left set.  A client runs _connect, which first disconnects any current
peers, attempts the connection, logs a refusal instead of raising, and
schedules a reconnect task when the reconnect flag is set. -/
def stream_start (isServer : Bool) (s : StreamState) (addr : String) (port : Nat)
    (reconnect : Bool) (io : StreamIo) : StreamStepResult :=
  if s.running then ⟨none, s, []⟩
  else
    let s1 : StreamState := ⟨true, reconnect, addr, port, s.peers, s.hasListener⟩
    if isServer then
      match io with
      | .ok => ⟨none, ⟨true, reconnect, addr, port, s.peers, true⟩,
                [.listenAttempt, .onStartedCb]⟩
      | .failed => ⟨some .bindError, s1, [.listenAttempt, .errorLogged]⟩
    else
      let disconnects := s.peers.map (fun p => StreamEffect.disconnectedPeer p.1)
      match io with
      | .ok => ⟨none, ⟨true, reconnect, addr, port, s.peers, s.hasListener⟩,
                disconnects ++ [.connectAttempt, .onStartedCb]⟩
      | .failed =>
        if reconnect then
          ⟨none, s1, disconnects ++ [.connectAttempt, .errorLogged, .scheduledReconnect]⟩
        else
          ⟨none, s1, disconnects ++ [.connectAttempt, .errorLogged]⟩

/-- StreamEndpoint.stop: a stopped endpoint returns immediately;
otherwise a server closes its listener first, a client clears the
reconnect flag and cancels its tasks; all peers are disconnected, the
addr, port, backoff and running fields are reset, and on_stopped
fires. -/
def stream_stop (isServer : Bool) (s : StreamState) : StreamState × List StreamEffect :=
  if s.running = false then (s, [])
  else
    let listenerEffects :=
      if isServer ∧ s.hasListener then [StreamEffect.closedListener] else []
    let disconnects := s.peers.map (fun p => StreamEffect.disconnectedPeer p.1)
    (⟨false, if isServer then s.reconnect else false, "", 0, [],
      if isServer then false else s.hasListener⟩,
     listenerEffects ++ disconnects ++ [.onStoppedCb])

/-- Two consecutive start calls on a stream endpoint. -/
def stream_start_twice (isServer : Bool) (s : StreamState) (addr : String) (port : Nat)
    (reconnect : Bool) (io1 io2 : StreamIo) : StreamStepResult :=
  let r1 := stream_start isServer s addr port reconnect io1
  match r1.raised with
  | some _ => r1
  | none =>
    let r2 := stream_start isServer r1.state addr port reconnect io2
    ⟨r2.raised, r2.state, r1.effects ++ r2.effects⟩

/-- Result of StreamEndpoint.send: the exception if one escaped, and
the (peer, payload) writes performed, in order. -/
structure SendResult where
  raised : Option PyErr
  writes : List (List Nat × Payload)
deriving DecidableEq, Repr

/-- The send loop: prot = self._peers[_peer_id] raises KeyError on a
missing peer, aborting the loop with the writes made so far. -/
def stream_send_loop (peers : List (List Nat × Nat)) (ids : List (List Nat))
    (payload : Payload) (acc : List (List Nat × Payload)) : SendResult :=
  match ids with
  | [] => ⟨none, acc⟩
  | p :: rest =>
    match alistFind p peers with
    | none => ⟨some .keyError, acc⟩
    | some _prot => stream_send_loop peers rest payload (acc ++ [(p, payload)])

/-- StreamEndpoint.send for an endpoint with the default
content type application/data (serialization name none): without peers
it logs and returns; the data runs through dumps; then
peer_ids = [peer_id] if peer_id else list(self._peers), where Python
truthiness makes both none and the empty byte string select the
broadcast list; finally each chosen peer is looked up and written
to. -/
def stream_send (peers : List (List Nat × Nat)) (data : PyData)
    (peer_id : Option (List Nat)) : SendResult :=
  if peers = [] then ⟨none, []⟩
  else
    match ser_dumps data none with
    | .error _ => ⟨none, []⟩
    | .ok (_content_type, _content_encoding, payload) =>
      let peer_ids :=
        match peer_id with
        | some p => if p ≠ [] then [p] else peers.map Prod.fst
        | none => peers.map Prod.fst
      stream_send_loop peers peer_ids payload []

/-! ## Helper lemmas -/

/-- A key that does not occur in the association list is not found. -/
lemma alistFind_eq_none_of_not_mem {κ ν : Type} [DecidableEq κ] (k : κ)
    (l : List (κ × ν)) (h : k ∉ l.map Prod.fst) : alistFind k l = none := by
  induction l with
  | nil => rfl
  | cons p rest ih =>
    obtain ⟨k', v⟩ := p
    have hne : ¬ k = k' := by
      intro he
      exact h (by simp [he])
    have hrest : k ∉ rest.map Prod.fst := by
      intro hm
      exact h (by simp [hm])
    simp only [alistFind, if_neg hne]
    exact ih hrest

/-- Erasing a key from an association list with no duplicate keys makes
it unfindable. -/
lemma alistFind_alistErase_of_nodup {κ ν : Type} [DecidableEq κ] (k : κ)
    (l : List (κ × ν)) (h : (l.map Prod.fst).Nodup) :
    alistFind k (alistErase k l) = none := by
  induction l with
  | nil => rfl
  | cons p rest ih =>
    obtain ⟨k', v⟩ := p
    rw [List.map_cons] at h
    obtain ⟨hnotin, hrest⟩ := List.nodup_cons.mp h
    by_cases hk : k = k'
    · simp only [alistErase, if_pos hk]
      exact alistFind_eq_none_of_not_mem _ _ (hk ▸ hnotin)
    · simp only [alistErase, if_neg hk, alistFind, if_neg hk]
      exact ih hrest

/-- py_split always returns at least one segment, like Python split. -/
lemma py_split_ne_nil (sep l : List Nat) : py_split sep l ≠ [] := by
  rw [py_split.eq_def]
  split
  · simp
  · split
    · simp
    · split
      · simp
      · split <;> simp

/-! ## Claim theorems -/

/-- C1: the claim says delivering the netstring frame of any payload one
byte per data_received call produces exactly one on_message carrying the
payload with the connection left open.  On the code, the first call that
resumes in WAIT_PAYLOAD reads the unassigned local msg_len and raises
UnboundLocalError: feeding the 6-byte frame of the 2-byte payload
[104, 105] byte by byte raises at the fifth byte with no message
delivered, while the same frame delivered in a single call yields the
one expected message. -/
theorem C1_netstring_bytewise_delivery_raises :
    ns_feed ⟨[], .waitHeader⟩ [[2], [0], [0], [0], [104], [105]] =
      (⟨[2, 0, 0, 0, 104], .waitPayload⟩, [], false, some .unboundLocalError) ∧
    netstring_data_received ⟨[], .waitHeader⟩ [2, 0, 0, 0, 104, 105] =
      ⟨[], .waitHeader, [[104, 105]], false, none⟩ := by
  constructor
  · simp [ns_feed, netstring_data_received, ns_loop, NETSTRING_HEADER_SIZE,
      MAX_MSG_SIZE, leUint32]
  · simp [netstring_data_received, ns_loop, NETSTRING_HEADER_SIZE,
      MAX_MSG_SIZE, leUint32]

/-- C2: for the zero-length frame with type id 7 the stream parser
delivers exactly one message with payload b"" passed under the keyword
identifier, while the datagram parser delivers the text string "" under
the keyword type_identifier: the id value survives in both, but the two
deliveries are not identical (payload type and option key differ), and
the datagram payload is not a bytes value. -/
theorem C2_mti_zero_length_frame_divergence :
    mti_stream_data_received ⟨[], .waitHeader⟩ [0, 0, 0, 0, 7, 0, 0, 0] =
      ⟨[], .waitHeader, [⟨PyData.bytes [], "identifier", 7⟩], false, none, false⟩ ∧
    mti_datagram_received [0, 0, 0, 0, 7, 0, 0, 0] ("127.0.0.1", 9000) =
      .ok (⟨PyData.str "", "type_identifier", 7⟩, ("127.0.0.1", 9000)) ∧
    (⟨PyData.bytes [], "identifier", 7⟩ : MtiMsg) ≠
      ⟨PyData.str "", "type_identifier", 7⟩ := by
  refine ⟨?_, rfl, by simp⟩
  simp [mti_stream_data_received, mti_loop, MTI_HEADER_SIZE, MAX_MSG_SIZE, leUint32]

/-- C3: the claim says the published message headers contain every entry
of the caller-supplied headers mapping merged with the pipeline entries.
On the code, publish_message rebinds headers to a fresh empty dict
before encoding: publishing raw bytes with caller headers containing the
entry (a, b) produces a message whose headers mapping is empty, so the
caller entry is absent. -/
theorem C3_publish_message_drops_caller_headers :
    producer_publish_message ⟨true, "rk", none, none⟩ (PyData.bytes [120]) none
        (some CONTENT_TYPE_DATA) none [("a", HVal.str "b")] none (fun _ => none) =
      .published (Payload.raw [120]) CONTENT_TYPE_DATA "binary" [] "rk" false ∧
    ("a", HVal.str "b") ∉ ([] : List (String × HVal)) := by
  constructor
  · rfl
  · simp

/-- C4: in the compression registry, looking a codec up by convenience
name and by mime type returns the same compressor for every registered
pair, and an unknown key fails; but in the serialization registry,
get_codec looks up by convenience name only, so the json codec is found
under the name json while lookup by its registered mime type
application/json fails exactly like an unregistered key. -/
theorem C4_codec_lookup_name_vs_mime :
    get_compressor comp_registry (some "zlib") =
      get_compressor comp_registry (some "application/zlib") ∧
    get_compressor comp_registry (some "deflate") =
      get_compressor comp_registry (some "application/deflate") ∧
    get_compressor comp_registry (some "gzip") =
      get_compressor comp_registry (some "applications/x-gzip") ∧
    get_compressor comp_registry (some "bzip2") =
      get_compressor comp_registry (some "applications/x-bz2") ∧
    get_compressor comp_registry (some "lzma") =
      get_compressor comp_registry (some "applications/x-lzma") ∧
    get_compressor comp_registry (some "invalid") = .error .invalidCompressor ∧
    ser_get_codec ser_registry (some "json") =
      .ok ⟨"application/json", "utf-8", "JsonSerializer"⟩ ∧
    ser_get_codec ser_registry (some "application/json") = .error .invalidSerializer ∧
    ser_get_codec ser_registry (some "invalid") = .error .invalidSerializer :=
  ⟨rfl, rfl, rfl, rfl, rfl, rfl, rfl, rfl, rfl⟩

/-- C5 counterexample: the claim says on_message is never invoked with
an empty payload.  Feeding a single newline to the newline-delimited
parser invokes on_message once with the empty payload, and feeding
a, newline, newline, b, newline delivers the empty middle segment. -/
theorem C5_delim_emits_empty_payload :
    delim_data_received ⟨[10], []⟩ [10] = (⟨[10], []⟩, [[]]) ∧
    [] ∈ (delim_data_received ⟨[10], []⟩ [97, 10, 10, 98, 10]).2 := by
  constructor
  · simp [delim_data_received, py_split, listStartsWith]
  · simp [delim_data_received, py_split, listStartsWith]

/-- C5 amended: on_message is invoked on exactly the segments of
splitting buffer plus data on the delimiter except the final segment,
which instead becomes the new buffer (it is empty when the bytes ended
with the delimiter, a partial message otherwise).  Hence the trailing
empty segment is dropped, but empty segments from consecutive or
leading delimiters are delivered as empty payloads. -/
theorem C5_delim_delivers_all_but_last_segment (s : DelimState) (data : List Nat) :
    (delim_data_received s data).2 ++ [(delim_data_received s data).1.buffer] =
      py_split s.delimiter (s.buffer ++ data) := by
  unfold delim_data_received
  have hne : py_split s.delimiter (s.buffer ++ data) ≠ [] := py_split_ne_nil _ _
  by_cases hlast : (py_split s.delimiter (s.buffer ++ data)).getLast? = some []
  · simp only [hlast, if_pos rfl]
    exact List.dropLast_append_getLast? _ (by simp [hlast])
  · simp only [if_neg hlast]
    rw [List.getLast?_eq_getLast_of_ne_nil hne]
    simp
    exact List.dropLast_append_getLast hne

/-- C6: with backoff_maximum 10 the nominal jitter-free waits before the
first six connect attempts are exactly 0, 1, 5/2, 19/4, 65/8 and 10
seconds; the wait evolves by next equal to the minimum of the maximum
and current plus half of current plus one starting from zero; any wait
drawn from the uniform jitter interval lies within five percent of the
nominal wait; and a successful connection resets the backoff to 0. -/
theorem C6_backoff_schedule :
    (nominal_backoff 10 0 = 0 ∧ nominal_backoff 10 1 = 1 ∧
     nominal_backoff 10 2 = 5 / 2 ∧ nominal_backoff 10 3 = 19 / 4 ∧
     nominal_backoff 10 4 = 65 / 8 ∧ nominal_backoff 10 5 = 10) ∧
    (∀ n : ℕ, nominal_backoff 10 (n + 1) =
      min 10 (nominal_backoff 10 n + nominal_backoff 10 n / 2 + 1)) ∧
    (∀ b w : ℚ, 0 ≤ b → backoff_wait_lo b ≤ w → w ≤ backoff_wait_hi b →
      |w - b| ≤ b * BACKOFF_JITTER) ∧
    backoff_after_success = 0 := by
  refine ⟨?_, ?_, ?_, rfl⟩
  · norm_num [nominal_backoff, next_backoff]
  · intro n
    rfl
  · intro b w _hb hlo hhi
    rw [abs_le]
    constructor
    · have hcomp := le_trans (le_max_right 0 (b - b * BACKOFF_JITTER)) hlo
      linarith [hcomp]
    · simp [backoff_wait_hi] at hhi
      linarith [hhi]

/-- C6 witness: the jitter bound of the schedule theorem evaluated at
nominal backoff 1 and sampled wait 21/20. -/
theorem C6_backoff_schedule_witness :
    |(21 : ℚ) / 20 - 1| ≤ 1 * BACKOFF_JITTER :=
  C6_backoff_schedule.2.2.1 1 (21 / 20) (by norm_num)
    (by norm_num [backoff_wait_lo, BACKOFF_JITTER])
    (by norm_num [backoff_wait_hi, BACKOFF_JITTER])

/-- C7: a response message whose headers contain x-death and whose
correlation id matches a pending outstanding request makes
on_response_message ack, pop the slot from the outstanding table, fail
it with the Timeout error and never attempt to decode the body; with
distinct correlation ids the slot is no longer findable afterwards. -/
theorem C7_xdeath_times_out_slot :
    ∀ (futures : List (String × FutureState)) (msg : IncomingMsg)
      (decode_message : IncomingMsg → Except PyErr PyData) (cid : String),
      msg.correlation_id = some cid →
      alistFind cid futures = some FutureState.pending →
      ("x-death") ∈ msg.headerKeys →
      on_response_message futures msg decode_message =
        ⟨alistErase cid futures, .setException .timeoutError, true, false⟩ ∧
      ((futures.map Prod.fst).Nodup →
        alistFind cid (alistErase cid futures) = none) := by
  intro futures msg decode_message cid hcorr hfind hx
  constructor
  · simp [on_response_message, hcorr, hfind, hx]
  · intro hnodup
    exact alistFind_alistErase_of_nodup _ _ hnodup

/-- C7 witness: the theorem applied to a singleton outstanding table and
a dead-lettered message with matching correlation id. -/
theorem C7_xdeath_times_out_slot_witness :
    on_response_message [("abc", FutureState.pending)]
        ⟨some ("abc"), [("x-death")]⟩ (fun _ => Except.ok (PyData.str "")) =
      ⟨alistErase ("abc") [("abc", FutureState.pending)],
       .setException .timeoutError, true, false⟩ ∧
    ((([("abc", FutureState.pending)] : List (String × FutureState)).map Prod.fst).Nodup →
      alistFind ("abc") (alistErase ("abc") [("abc", FutureState.pending)]) = none) :=
  C7_xdeath_times_out_slot [("abc", FutureState.pending)]
    ⟨some ("abc"), [("x-death")]⟩ (fun _ => Except.ok (PyData.str "")) ("abc")
    rfl (by decide) (by decide)

/-- C8: on a non-running datagram endpoint, start with neither address
raises the at-least-one-address error and start with both addresses
raises the only-one-address error; in both cases no effect is performed
and the state, in particular the running flag, is unchanged. -/
theorem C8_datagram_start_invalid_configuration :
    ∀ (s : DgState) (a b : String × Nat) (io : DgIo), s.running = false →
      datagram_start s none none io = ⟨some .atLeastOneAddrRequired, s, []⟩ ∧
      datagram_start s (some a) (some b) io = ⟨some .onlyOneAddrAllowed, s, []⟩ := by
  intro s a b io hrun
  constructor
  · simp [datagram_start, hrun]
  · simp [datagram_start, hrun]

/-- C8 witness: the theorem applied to a fresh endpoint and two concrete
addresses. -/
theorem C8_datagram_start_invalid_configuration_witness :
    datagram_start ⟨false, false⟩ none none .opened =
      ⟨some .atLeastOneAddrRequired, ⟨false, false⟩, []⟩ ∧
    datagram_start ⟨false, false⟩ (some ("h", 1)) (some ("h", 2)) .opened =
      ⟨some .onlyOneAddrAllowed, ⟨false, false⟩, []⟩ :=
  C8_datagram_start_invalid_configuration ⟨false, false⟩ ("h", 1) ("h", 2) .opened rfl

/-- C9 counterexample: the claim concludes that two consecutive start
calls are always observationally equivalent to one.  For a non-running
datagram endpoint whose socket open is refused, one start leaves the
endpoint not running after one open attempt and one error log, so the
second start repeats both: the two-call run differs from the one-call
run. -/
theorem C9_datagram_start_twice_differs :
    datagram_start_twice ⟨false, false⟩ (some ("127.0.0.1", 8125)) none
        .refused .refused ≠
      datagram_start ⟨false, false⟩ (some ("127.0.0.1", 8125)) none .refused := by
  decide

/-- C9 amended: start on a running endpoint and stop on a non-running
endpoint are no-ops for both endpoint kinds; two consecutive stops are
always observationally equivalent to one; two consecutive starts are
equivalent to one on every stream endpoint (start marks it running
before any network operation), and on a datagram endpoint whenever the
first start leaves it running, which fails only when the socket open is
refused. -/
theorem C9_lifecycle_idempotence_amended :
    (∀ (isServer : Bool) (s : StreamState) (addr : String) (port : Nat)
        (reconnect : Bool) (io : StreamIo), s.running = true →
        stream_start isServer s addr port reconnect io = ⟨none, s, []⟩) ∧
    (∀ (s : DgState) (la ra : Option (String × Nat)) (io : DgIo), s.running = true →
        datagram_start s la ra io = ⟨none, s, []⟩) ∧
    (∀ (isServer : Bool) (s : StreamState), s.running = false →
        stream_stop isServer s = (s, [])) ∧
    (∀ (s : DgState), s.running = false → datagram_stop s = (s, [])) ∧
    (∀ (isServer : Bool) (s : StreamState),
        call_twice (stream_stop isServer) s = stream_stop isServer s) ∧
    (∀ (s : DgState), call_twice datagram_stop s = datagram_stop s) ∧
    (∀ (isServer : Bool) (s : StreamState) (addr : String) (port : Nat)
        (reconnect : Bool) (io io2 : StreamIo),
        stream_start_twice isServer s addr port reconnect io io2 =
          stream_start isServer s addr port reconnect io) ∧
    (∀ (s : DgState) (la ra : Option (String × Nat)) (io io2 : DgIo),
        (datagram_start s la ra io).state.running = true →
        datagram_start_twice s la ra io io2 = datagram_start s la ra io) := by
  refine ⟨?_, ?_, ?_, ?_, ?_, ?_, ?_, ?_⟩
  · intro isServer s addr port reconnect io hrun
    simp [stream_start, hrun]
  · intro s la ra io hrun
    simp [datagram_start, hrun]
  · intro isServer s hrun
    simp [stream_stop, hrun]
  · intro s hrun
    simp [datagram_stop, hrun]
  · intro isServer s
    by_cases hrun : s.running
    · simp [call_twice, stream_stop, hrun]
    · simp [call_twice, stream_stop, hrun]
  · intro s
    by_cases hrun : s.running
    · by_cases hp : s.hasProtocol
      · simp [call_twice, datagram_stop, hrun, hp]
      · simp [call_twice, datagram_stop, hrun, hp]
    · simp [call_twice, datagram_stop, hrun]
  · intro isServer s addr port reconnect io io2
    by_cases hrun : s.running
    · simp [stream_start_twice, stream_start, hrun]
    · cases isServer <;> cases io <;> cases reconnect <;>
        simp [stream_start_twice, stream_start, hrun]
  · intro s la ra io io2 hrun
    by_cases hr : s.running
    · simp [datagram_start_twice, datagram_start, hr]
    · rcases la with _ | a <;> rcases ra with _ | b <;> cases io <;>
        simp_all [datagram_start_twice, datagram_start]

/-- C9 witness: the hypothesis-bearing parts of the amended theorem at
concrete states: start on running endpoints, stop on stopped endpoints,
and a successful first datagram start followed by a second. -/
theorem C9_lifecycle_idempotence_amended_witness :
    stream_start true ⟨true, false, "", 0, [], true⟩ ("h") 1 false .ok =
      ⟨none, ⟨true, false, "", 0, [], true⟩, []⟩ ∧
    datagram_start ⟨true, true⟩ (some ("h", 1)) none .refused =
      ⟨none, ⟨true, true⟩, []⟩ ∧
    stream_stop false ⟨false, false, "", 0, [], false⟩ =
      (⟨false, false, "", 0, [], false⟩, []) ∧
    datagram_stop ⟨false, false⟩ = (⟨false, false⟩, []) ∧
    datagram_start_twice ⟨false, false⟩ (some ("h", 1)) none .opened .opened =
      datagram_start ⟨false, false⟩ (some ("h", 1)) none .opened :=
  ⟨C9_lifecycle_idempotence_amended.1 true ⟨true, false, "", 0, [], true⟩ ("h") 1 false .ok rfl,
   C9_lifecycle_idempotence_amended.2.1 ⟨true, true⟩ (some ("h", 1)) none .refused rfl,
   C9_lifecycle_idempotence_amended.2.2.1 false ⟨false, false, "", 0, [], false⟩ rfl,
   C9_lifecycle_idempotence_amended.2.2.2.1 ⟨false, false⟩ rfl,
   C9_lifecycle_idempotence_amended.2.2.2.2.2.2.2 ⟨false, false⟩ (some ("h", 1)) none
     .opened .opened rfl⟩

/-- C10 counterexample: the claim says any non-null unknown peer id
raises KeyError with nothing written.  The empty byte string is a
non-null peer id that is not a key of the peer map, yet Python
truthiness sends it down the broadcast path: with one connected peer the
call raises nothing and writes the data to that peer. -/
theorem C10_empty_peer_id_broadcasts :
    alistFind ([] : List Nat) [([1], 0)] = none ∧
    stream_send [([1], 0)] (PyData.bytes [5]) (some []) =
      ⟨none, [([1], Payload.raw [5])]⟩ := by
  decide

/-- C10 amended: when at least one peer is connected and send is called
with a non-null, non-empty peer id that is not a key of the peer map,
the peer map lookup raises an uncaught KeyError and the data is written
to no peer. -/
theorem C10_send_unknown_peer_raises_keyerror :
    ∀ (peers : List (List Nat × Nat)) (data : PyData) (p : List Nat),
      peers ≠ [] → p ≠ [] → alistFind p peers = none →
      stream_send peers data (some p) = ⟨some .keyError, []⟩ := by
  intro peers data p hpeers hp hfind
  cases data <;> simp [stream_send, ser_dumps, hpeers, hp, stream_send_loop, hfind]

/-- C10 witness: the amended theorem applied to one connected peer and
the absent peer id [2]. -/
theorem C10_send_unknown_peer_raises_keyerror_witness :
    stream_send [([1], 0)] (PyData.bytes [5]) (some [2]) = ⟨some .keyError, []⟩ :=
  C10_send_unknown_peer_raises_keyerror [([1], 0)] (PyData.bytes [5]) [2]
    (by decide) (by decide) (by decide)
